import Mathlib

/-!
Shallow embedding of the sensor-fusion and calibration core of the Davis
wind sensor plugin (`main.py`), together with theorems checking the
natural-language specification against it.

Python floats are modelled as exact numbers: `ℚ` wherever the source only
uses field arithmetic, `ℝ` where the source applies square roots or
trigonometric functions.  `float('inf')` sentinels are modelled by
`Option` with `none` standing for positive infinity.  Wall-clock fields
(timestamps, intervals elapsing) are external collaborators and are not
modelled.
-/

namespace WindSensor

/-- Python float modulo `x % m`: the result takes the sign of `m`
(so for `m > 0` it lies in `[0, m)`).  Modelled as `x - m * ⌊x / m⌋`. -/
def pymod (x m : ℚ) : ℚ := x - m * ⌊x / m⌋

/-- `MPS_TO_KNOTS = 1.94384` (main.py line 441). -/
def MPS_TO_KNOTS : ℚ := 1.94384

/-- `DEFAULT_RPM_TO_MPS = 0.098` (main.py line 447). -/
def DEFAULT_RPM_TO_MPS : ℚ := 0.098

/-- A wind reading as consumed by `calculate_calibration_factors`: the
`wind_speed_knots` and `wind_direction_deg` fields of the Python dicts. -/
structure WindSample where
  wind_speed_knots : ℚ
  wind_direction_deg : ℚ
deriving DecidableEq

/-- Wrap-around direction difference, the loop body of
`calculate_calibration_factors` (main.py lines 352-361). -/
def wrap_diff (davis_dir tempest_dir : ℚ) : ℚ :=
  let diff := tempest_dir - davis_dir
  if 180 < diff then diff - 360
  else if diff < -180 then diff + 360
  else diff

/-- The accumulation loop of `calculate_calibration_factors`
(main.py lines 346-361): build `speed_ratios` (only pairs where both
speeds exceed the `0.1` knot noise floor) and `direction_diffs`
(every pair), in input order. -/
def ratios_and_diffs : List (WindSample × WindSample) → List ℚ × List ℚ
  | [] => ([], [])
  | (davis, tempest) :: rest =>
    let tail := ratios_and_diffs rest
    (if 0.1 < davis.wind_speed_knots ∧ 0.1 < tempest.wind_speed_knots then
        tempest.wind_speed_knots / davis.wind_speed_knots :: tail.1
      else tail.1,
     wrap_diff davis.wind_direction_deg tempest.wind_direction_deg :: tail.2)

/-- The dict returned by `calculate_calibration_factors` (main.py lines
383-391).  Confidences are reals because the source computes them through
`** 0.5` (a square root). -/
structure CalibrationResult where
  speed_calibration_factor : ℚ
  direction_offset : ℚ
  speed_confidence : ℝ
  direction_confidence : ℝ
  sample_count : ℕ
  speed_ratios : List ℚ
  direction_diffs : List ℚ

/-- Population standard deviation as written in main.py lines 371-378:
`(sum((x - avg) ** 2 for x in xs) / len(xs)) ** 0.5`. -/
noncomputable def pystd (xs : List ℚ) (avg : ℚ) : ℝ :=
  Real.sqrt ((((xs.map fun x => (x - avg) ^ 2).sum / xs.length : ℚ) : ℝ))

/-- `calculate_calibration_factors` (main.py lines 338-391). -/
noncomputable def calculate_calibration_factors
    (davis_readings tempest_readings : List WindSample) : Option CalibrationResult :=
  if davis_readings = [] ∨ tempest_readings = [] ∨
      davis_readings.length ≠ tempest_readings.length then none
  else
    let rd := ratios_and_diffs (davis_readings.zip tempest_readings)
    if rd.1 = [] then none
    else
      let avg_speed_ratio := rd.1.sum / rd.1.length
      let avg_direction_offset := rd.2.sum / rd.2.length
      let speed_confidence : ℝ :=
        if 1 < rd.1.length then 1 / (1 + pystd rd.1 avg_speed_ratio) else 0.5
      let dir_confidence : ℝ :=
        if 1 < rd.2.length then 1 / (1 + pystd rd.2 avg_direction_offset / 10) else 0.5
      some { speed_calibration_factor := avg_speed_ratio
             direction_offset := avg_direction_offset
             speed_confidence := speed_confidence
             direction_confidence := dir_confidence
             sample_count := rd.1.length
             speed_ratios := rd.1
             direction_diffs := rd.2 }

/-- The fields of a parsed serial line returned by
`WindSensorReader.parse_wind_data` (main.py lines 1323-1332). -/
structure ParsedWindData where
  iteration : ℕ
  wind_speed_mps : ℚ
  wind_speed_knots : ℚ
  wind_direction_deg : ℚ
  rotations_per_second : ℚ
  rpm_tops : ℕ
  rpm_raw : ℕ
  pot_value : ℕ
deriving DecidableEq

/-- `WindSensorReader.parse_wind_data` (main.py lines 1277-1339) after the
regex has matched the four non-negative integers of a
`wind: %d %d %d %d` line; the no-match and int-conversion failure paths
return `None` and carry no further content to model. -/
def parse_wind_data (direction_scale direction_offset calibration_factor : ℚ)
    (iteration pot_value rpm_tops rpm_raw : ℕ) : ParsedWindData :=
  let direction_base : ℚ := ((pot_value : ℚ) / 1024) * 360
  let direction_mod := pymod (direction_base * direction_scale + direction_offset) 360
  let direction_deg := if direction_mod < 0 then direction_mod + 360 else direction_mod
  let speed_mps := (rpm_tops : ℚ) * DEFAULT_RPM_TO_MPS * calibration_factor
  let speed_knots := speed_mps * MPS_TO_KNOTS
  let rps : ℚ := if 0 < rpm_tops then (rpm_tops : ℚ) / 60 else 0
  ⟨iteration, speed_mps, speed_knots, direction_deg, rps, rpm_tops, rpm_raw, pot_value⟩

/-- `DirectionHistoryDB._get_direction_bucket` (main.py lines 1530-1532):
`int(direction // 10) * 10`, i.e. the 10° bin floor. -/
def get_direction_bucket (direction : ℚ) : ℤ := ⌊direction / 10⌋ * 10

/-- `DirectionHistoryDB.add_data_point` (main.py lines 1555-1569).  The
history dict is modelled as a total map from bucket key to sample list, a
missing key being the empty list; `enabled` is the constructor flag. -/
def add_data_point (enabled : Bool) (history : ℤ → List ℤ)
    (tempest_direction : ℚ) (davis_pot_value : ℤ) : ℤ → List ℤ :=
  if enabled = false then history
  else fun b =>
    if b = get_direction_bucket tempest_direction then
      let samples := history b ++ [davis_pot_value]
      if 100 < samples.length then samples.drop (samples.length - 100) else samples
    else history b

/-- `DirectionHistoryDB.get_expected_pot_value` (main.py lines 1571-1584):
`sorted(values)[len(values) // 2]` for buckets with at least 5 samples.
Python's `sorted` is modelled by `List.insertionSort` (both are stable
sorts, hence the same function on integer lists). -/
def get_expected_pot_value (enabled : Bool) (history : ℤ → List ℤ)
    (tempest_direction : ℚ) : Option ℤ :=
  if enabled = false then none
  else
    let bucket := get_direction_bucket tempest_direction
    if 5 ≤ (history bucket).length then
      let values := List.insertionSort (· ≤ ·) (history bucket)
      some (values.getD (values.length / 2) 0)
    else none

/-- The statistical median, following the spec's words (median of a
sample list): middle element of the sorted list for odd length, mean of
the two middle elements for even length.  Used only to compare the
spec's claim against `get_expected_pot_value`. -/
def median_spec (l : List ℤ) : ℚ :=
  let s := List.insertionSort (· ≤ ·) l
  if l.length % 2 = 1 then ((s.getD (l.length / 2) 0 : ℤ) : ℚ)
  else (((s.getD (l.length / 2 - 1) 0 : ℤ) : ℚ) + ((s.getD (l.length / 2) 0 : ℤ) : ℚ)) / 2

/-- `math.radians`: degrees to radians. -/
noncomputable def radians (deg : ℝ) : ℝ := deg * (Real.pi / 180)

/-- `math.degrees`: radians to degrees. -/
noncomputable def degrees (rad : ℝ) : ℝ := rad * (180 / Real.pi)

/-- `math.atan2 y x` on exact reals (C library convention,
`atan2 0 0 = 0` as in CPython). -/
noncomputable def atan2 (y x : ℝ) : ℝ :=
  if 0 < x then Real.arctan (y / x)
  else if x < 0 then
    (if 0 ≤ y then Real.arctan (y / x) + Real.pi else Real.arctan (y / x) - Real.pi)
  else
    (if 0 < y then Real.pi / 2 else if y < 0 then -(Real.pi / 2) else 0)

/-- State of `WindDataCollector` (main.py lines 669-703).  `Option ℝ`
models the float minima with `none` standing for the initial
`float('inf')`; the `start_time` wall-clock field is external and not
modelled. -/
structure WindDataCollector where
  interval_seconds : ℚ
  wind_speeds_mps : List ℝ
  wind_speeds_knots : List ℝ
  wind_directions_deg : List ℝ
  sample_count : ℕ
  min_speed_knots : Option ℝ
  max_speed_knots : ℝ
  min_speed_mps : Option ℝ
  max_speed_mps : ℝ

/-- `WindDataCollector.reset_collection` (main.py lines 676-686). -/
def reset_collection (interval_seconds : ℚ) : WindDataCollector :=
  ⟨interval_seconds, [], [], [], 0, none, 0, none, 0⟩

/-- The fields of a parsed reading consumed by
`WindDataCollector.add_reading`. -/
structure ReadingInput where
  wind_speed_mps : ℝ
  wind_speed_knots : ℝ
  wind_direction_deg : ℝ

/-- Minimum against a possibly-infinite current value:
`min(inf, x) = x`, `min(a, x)` otherwise. -/
noncomputable def min_opt (m : Option ℝ) (x : ℝ) : Option ℝ :=
  some (match m with
        | none => x
        | some a => min a x)

/-- Maximum against the current value (the float maxima start at `0.0`,
so they stay plain reals). -/
noncomputable def add_reading (c : WindDataCollector) (w : ReadingInput) :
    WindDataCollector :=
  { c with
    wind_speeds_mps := c.wind_speeds_mps ++ [w.wind_speed_mps]
    wind_speeds_knots := c.wind_speeds_knots ++ [w.wind_speed_knots]
    wind_directions_deg := c.wind_directions_deg ++ [w.wind_direction_deg]
    sample_count := c.sample_count + 1
    min_speed_knots := min_opt c.min_speed_knots w.wind_speed_knots
    max_speed_knots := max c.max_speed_knots w.wind_speed_knots
    min_speed_mps := min_opt c.min_speed_mps w.wind_speed_mps
    max_speed_mps := max c.max_speed_mps w.wind_speed_mps }

/-- The dict returned by `WindDataCollector.get_averaged_data`
(main.py lines 744-757), wall-clock fields omitted.  The min fields are
`Option ℝ` with `none` standing for `float('inf')`. -/
structure AveragedData where
  avg_wind_speed_mps : ℝ
  avg_wind_speed_knots : ℝ
  avg_wind_direction_deg : ℝ
  wind_consistency : ℝ
  min_wind_speed_knots : Option ℝ
  max_wind_speed_knots : ℝ
  min_wind_speed_mps : Option ℝ
  max_wind_speed_mps : ℝ
  sample_count : ℕ
  interval_seconds : ℚ

/-- `WindDataCollector.get_averaged_data` (main.py lines 710-759). -/
noncomputable def get_averaged_data (c : WindDataCollector) : Option AveragedData :=
  if c.sample_count = 0 then none
  else
    let avg_speed_mps := c.wind_speeds_mps.sum / c.wind_speeds_mps.length
    let avg_speed_knots := c.wind_speeds_knots.sum / c.wind_speeds_knots.length
    let x_components := c.wind_directions_deg.map fun d => Real.cos (radians d)
    let y_components := c.wind_directions_deg.map fun d => Real.sin (radians d)
    let avg_x := x_components.sum / x_components.length
    let avg_y := y_components.sum / y_components.length
    let avg_direction_raw := degrees (atan2 avg_y avg_x)
    let avg_direction_deg :=
      if avg_direction_raw < 0 then avg_direction_raw + 360 else avg_direction_raw
    let result_magnitude := Real.sqrt (avg_x * avg_x + avg_y * avg_y)
    let mins : Option ℝ × Option ℝ :=
      match c.min_speed_knots with
      | none => (some 0, some 0)
      | some v => (some v, c.min_speed_mps)
    some { avg_wind_speed_mps := avg_speed_mps
           avg_wind_speed_knots := avg_speed_knots
           avg_wind_direction_deg := avg_direction_deg
           wind_consistency := result_magnitude
           min_wind_speed_knots := mins.1
           max_wind_speed_knots := c.max_speed_knots
           min_wind_speed_mps := mins.2
           max_wind_speed_mps := c.max_speed_mps
           sample_count := c.sample_count
           interval_seconds := c.interval_seconds }

/-- Configuration of `ContinuousCalibrator` (argparse surface,
main.py lines 618-653); thresholds are compared against real-valued
confidences, the adjustment rate multiplies rational factors. -/
structure CalibConfig where
  continuous_confidence_threshold : ℝ
  continuous_direction_confidence_threshold : ℝ
  continuous_adjustment_rate : ℚ
  initial_calibration_confidence : ℝ
  initial_direction_confidence : ℝ

/-- The argparse defaults (main.py lines 618-646): speed threshold 0.5,
direction threshold 0.0, adjustment rate 0.3, initial speed threshold
0.3, initial direction threshold 0.0. -/
noncomputable def default_config : CalibConfig := ⟨0.5, 0, 0.3, 0.3, 0⟩

/-- The live calibration state written by `ContinuousCalibrator`
(main.py lines 1620-1625). -/
structure CalibState where
  current_speed_factor : ℚ
  current_direction_offset : ℚ
  has_initial_calibration : Bool
deriving DecidableEq

/-- The per-cycle calibration step of
`ContinuousCalibrator._continuous_calibration_loop`
(main.py lines 1831-1908): given the paired samples a collection phase
produced, compute calibration factors and conditionally apply them to
the live state. -/
noncomputable def calibration_cycle (cfg : CalibConfig) (st : CalibState)
    (davis_readings tempest_readings : List WindSample) : CalibState :=
  if 3 ≤ davis_readings.length then
    match calculate_calibration_factors davis_readings tempest_readings with
    | some result =>
      let thresholds : ℝ × ℝ :=
        if st.has_initial_calibration = false then
          (cfg.initial_calibration_confidence, cfg.initial_direction_confidence)
        else
          (cfg.continuous_confidence_threshold,
           cfg.continuous_direction_confidence_threshold)
      if thresholds.1 ≤ result.speed_confidence ∧
          thresholds.2 ≤ result.direction_confidence then
        let adjustment_rate : ℚ :=
          if st.has_initial_calibration = false then 1
          else cfg.continuous_adjustment_rate
        { current_speed_factor :=
            st.current_speed_factor * (1 - adjustment_rate) +
              result.speed_calibration_factor * adjustment_rate
          current_direction_offset :=
            st.current_direction_offset * (1 - adjustment_rate) +
              result.direction_offset * adjustment_rate
          has_initial_calibration := true }
      else st
    | none => st
  else st

/-! ### Helper lemmas -/

lemma ratios_and_diffs_fst (pairs : List (WindSample × WindSample)) :
    (ratios_and_diffs pairs).1 =
      (pairs.filter fun p =>
          decide (0.1 < p.1.wind_speed_knots ∧ 0.1 < p.2.wind_speed_knots)).map
        fun p => p.2.wind_speed_knots / p.1.wind_speed_knots := by
  induction pairs with
  | nil => rfl
  | cons hd tl ih =>
    obtain ⟨davis, tempest⟩ := hd
    by_cases h : 0.1 < davis.wind_speed_knots ∧ 0.1 < tempest.wind_speed_knots
    · simp [ratios_and_diffs, List.filter_cons, h, ih]
    · simp [ratios_and_diffs, List.filter_cons, h, ih]

lemma ratios_and_diffs_snd (pairs : List (WindSample × WindSample)) :
    (ratios_and_diffs pairs).2 =
      pairs.map fun p => wrap_diff p.1.wind_direction_deg p.2.wind_direction_deg := by
  induction pairs with
  | nil => rfl
  | cons hd tl ih =>
    obtain ⟨davis, tempest⟩ := hd
    simp [ratios_and_diffs, ih]

lemma pymod_360_bounds (x : ℚ) : 0 ≤ pymod x 360 ∧ pymod x 360 < 360 := by
  have h : pymod x 360 = 360 * Int.fract (x / 360) := by
    unfold pymod Int.fract
    field_simp
  constructor
  · rw [h]
    exact mul_nonneg (by norm_num) (Int.fract_nonneg _)
  · rw [h]
    nlinarith [Int.fract_lt_one (x / 360)]

/-! ### Claim C7 -/

/-- Claim C7: if a continuous-calibration cycle collects fewer than 3
paired samples, the cycle ends with the live calibration state (speed
factor, direction offset, bootstrapped flag) unchanged. -/
theorem insufficient_samples_state_unchanged (cfg : CalibConfig) (st : CalibState)
    (davis_readings tempest_readings : List WindSample)
    (h : davis_readings.length < 3) :
    calibration_cycle cfg st davis_readings tempest_readings = st := by
  unfold calibration_cycle
  rw [if_neg (by omega)]

/-- Witness for C7 at a concrete empty sample set. -/
theorem insufficient_samples_state_unchanged_witness :
    calibration_cycle default_config ⟨1, 0, false⟩ [] [] = ⟨1, 0, false⟩ :=
  insufficient_samples_state_unchanged default_config ⟨1, 0, false⟩ [] [] (by decide)

/-! ### Claim C1 -/

/-- Claim C1 counterexample: `get_averaged_data` called on a collector
with zero samples returns `none` — no summary (hence no summary with a
minimum speed of 0) is returned at all. -/
theorem get_averaged_data_empty_returns_none :
    get_averaged_data (reset_collection 60) = none := by
  unfold get_averaged_data reset_collection
  rw [if_pos rfl]

/-- Claim C1 (amended): when zero samples have been added,
`get_averaged_data` returns `None` rather than a summary; moreover any
summary it does return carries a finite (non-infinity) minimum speed,
the `float('inf')` sentinel being clamped to 0 before the summary is
built. -/
theorem get_averaged_data_zero_samples (c : WindDataCollector) :
    (c.sample_count = 0 → get_averaged_data c = none) ∧
      ∀ r, get_averaged_data c = some r → r.min_wind_speed_knots.isSome := by
  constructor
  · intro h
    unfold get_averaged_data
    rw [if_pos h]
  · intro r hr
    unfold get_averaged_data at hr
    by_cases h : c.sample_count = 0
    · rw [if_pos h] at hr
      exact absurd hr (by simp)
    · rw [if_neg h] at hr
      have hrec := Option.some.inj hr
      rw [← hrec]
      cases hmin : c.min_speed_knots with
      | none => simp [hmin]
      | some v => simp [hmin]

/-- Witness for C1 at a concrete zero-sample collector state. -/
theorem get_averaged_data_zero_samples_witness :
    get_averaged_data ⟨60, [], [], [], 0, none, 0, none, 0⟩ = none :=
  (get_averaged_data_zero_samples ⟨60, [], [], [], 0, none, 0, none, 0⟩).1 rfl

/-! ### Claim C9 -/

/-- Claim C9: for every serial line matching the four-integer format and
every calibration parameters (any direction offset, including negative
ones; any non-negative speed factor), the parsed direction lies in
`[0, 360)` and the parsed speeds are non-negative (the debounced rpm
field, an unsigned capture, is always ≥ 0). -/
theorem parse_wind_data_range
    (direction_scale direction_offset calibration_factor : ℚ)
    (iteration pot_value rpm_tops rpm_raw : ℕ)
    (hcf : 0 ≤ calibration_factor) :
    0 ≤ (parse_wind_data direction_scale direction_offset calibration_factor
          iteration pot_value rpm_tops rpm_raw).wind_direction_deg ∧
    (parse_wind_data direction_scale direction_offset calibration_factor
          iteration pot_value rpm_tops rpm_raw).wind_direction_deg < 360 ∧
    0 ≤ (parse_wind_data direction_scale direction_offset calibration_factor
          iteration pot_value rpm_tops rpm_raw).wind_speed_mps ∧
    0 ≤ (parse_wind_data direction_scale direction_offset calibration_factor
          iteration pot_value rpm_tops rpm_raw).wind_speed_knots := by
  obtain ⟨h0, h1⟩ :=
    pymod_360_bounds (((pot_value : ℚ) / 1024) * 360 * direction_scale + direction_offset)
  have hmps : 0 ≤ (rpm_tops : ℚ) * DEFAULT_RPM_TO_MPS * calibration_factor :=
    mul_nonneg (mul_nonneg (by positivity) (by norm_num [DEFAULT_RPM_TO_MPS])) hcf
  unfold parse_wind_data
  simp only [if_neg (not_lt.mpr h0)]
  exact ⟨h0, h1, hmps, mul_nonneg hmps (by norm_num [MPS_TO_KNOTS])⟩

/-- Witness for C9 at a concrete line (`pot = 512`, `rpm = 3`) with a
negative direction offset of −1000°. -/
theorem parse_wind_data_range_witness :
    0 ≤ (parse_wind_data 1 (-1000) 1 0 512 3 3).wind_direction_deg ∧
    (parse_wind_data 1 (-1000) 1 0 512 3 3).wind_direction_deg < 360 ∧
    0 ≤ (parse_wind_data 1 (-1000) 1 0 512 3 3).wind_speed_mps ∧
    0 ≤ (parse_wind_data 1 (-1000) 1 0 512 3 3).wind_speed_knots :=
  parse_wind_data_range 1 (-1000) 1 0 512 3 3 (by norm_num)

/-! ### Concrete calibration computations shared by several claims -/

/-- The worked example of the spec: device 10 kt / 100° and reference
12 kt / 105°, five identical pairs. -/
def davis5 : List WindSample :=
  [⟨10, 100⟩, ⟨10, 100⟩, ⟨10, 100⟩, ⟨10, 100⟩, ⟨10, 100⟩]

def tempest5 : List WindSample :=
  [⟨12, 105⟩, ⟨12, 105⟩, ⟨12, 105⟩, ⟨12, 105⟩, ⟨12, 105⟩]

/-- The calibration result the engine computes on `davis5`/`tempest5`. -/
noncomputable def result5 : CalibrationResult :=
  ⟨6 / 5, 5, 1, 1, 5, [6 / 5, 6 / 5, 6 / 5, 6 / 5, 6 / 5], [5, 5, 5, 5, 5]⟩

lemma pystd_five_ratios : pystd [6 / 5, 6 / 5, 6 / 5, 6 / 5, 6 / 5] (6 / 5) = 0 := by
  unfold pystd
  norm_num

lemma pystd_five_diffs : pystd [5, 5, 5, 5, 5] 5 = 0 := by
  unfold pystd
  norm_num

lemma calc5_eq : calculate_calibration_factors davis5 tempest5 = some result5 := by
  have hrd : ratios_and_diffs (davis5.zip tempest5) =
      ([6 / 5, 6 / 5, 6 / 5, 6 / 5, 6 / 5], [5, 5, 5, 5, 5]) := by
    norm_num [davis5, tempest5, ratios_and_diffs, wrap_diff]
  unfold calculate_calibration_factors
  rw [if_neg (by simp [davis5, tempest5])]
  simp only [hrd]
  rw [if_neg (by simp)]
  norm_num [result5, pystd_five_ratios, pystd_five_diffs]

/-- A two-pair input where the second device speed `0.05` kt is below
the `0.1` kt noise floor: its ratio is excluded, its direction
difference is kept. -/
def davis_low : List WindSample := [⟨10, 100⟩, ⟨0.05, 200⟩]

def tempest_low : List WindSample := [⟨12, 105⟩, ⟨5, 210⟩]

/-- The result on `davis_low`/`tempest_low`: one surviving ratio, two
direction differences, speed confidence defaulting to 0.5, direction
confidence `1 / (1 + 2.5 / 10) = 4/5`. -/
noncomputable def result_low : CalibrationResult :=
  ⟨6 / 5, 15 / 2, 0.5, 4 / 5, 1, [6 / 5], [5, 10]⟩

lemma pystd_two_diffs : pystd [5, 10] (15 / 2) = 5 / 2 := by
  unfold pystd
  have h : ((([(5 : ℚ), 10].map fun x => (x - 15 / 2) ^ 2).sum
      / [(5 : ℚ), 10].length : ℚ) : ℝ) = (5 / 2) ^ 2 := by
    norm_num
  rw [h]
  exact Real.sqrt_sq (by norm_num)

lemma calc_low_eq :
    calculate_calibration_factors davis_low tempest_low = some result_low := by
  have hrd : ratios_and_diffs (davis_low.zip tempest_low) = ([6 / 5], [5, 10]) := by
    norm_num [davis_low, tempest_low, ratios_and_diffs, wrap_diff]
  unfold calculate_calibration_factors
  rw [if_neg (by simp [davis_low, tempest_low])]
  simp only [hrd]
  rw [if_neg (by simp)]
  norm_num [result_low, pystd_two_diffs]

/-! ### Claim C4 -/

/-- Claim C4: on five identical pairs (device 10 kt / 100°, reference
12 kt / 105°), `calculate_calibration_factors` returns speed factor 1.2,
direction offset 5°, and both confidences exactly 1 (zero spread). -/
theorem calibration_five_identical_pairs :
    ∃ r, calculate_calibration_factors davis5 tempest5 = some r ∧
      r.speed_calibration_factor = 1.2 ∧ r.direction_offset = 5 ∧
      r.speed_confidence = 1 ∧ r.direction_confidence = 1 :=
  ⟨result5, calc5_eq, by norm_num [result5], rfl, rfl, rfl⟩

/-! ### Claim C6 -/

/-- Claim C6: `calculate_calibration_factors` (a total function: it never
raises) returns a result exactly when both input lists are non-empty, of
equal length, and at least one pair survives the 0.1-knot noise floor;
it returns `None` in every other case. -/
theorem calculate_calibration_isSome_iff (davis tempest : List WindSample) :
    (calculate_calibration_factors davis tempest).isSome ↔
      (davis ≠ [] ∧ tempest ≠ [] ∧ davis.length = tempest.length ∧
        ∃ p ∈ davis.zip tempest,
          0.1 < p.1.wind_speed_knots ∧ 0.1 < p.2.wind_speed_knots) := by
  unfold calculate_calibration_factors
  by_cases hA : davis = [] ∨ tempest = [] ∨ davis.length ≠ tempest.length
  · rw [if_pos hA]
    simp only [Option.isSome_none, Bool.false_eq_true, false_iff]
    rintro ⟨hd, ht, hl, -⟩
    rcases hA with h | h | h
    · exact hd h
    · exact ht h
    · exact h hl
  · rw [if_neg hA]
    push_neg at hA
    obtain ⟨hd, ht, hl⟩ := hA
    by_cases hB : (ratios_and_diffs (davis.zip tempest)).1 = []
    · rw [if_pos hB]
      rw [ratios_and_diffs_fst] at hB
      simp only [List.map_eq_nil_iff, List.filter_eq_nil_iff, decide_eq_true_eq] at hB
      simp only [Option.isSome_none, Bool.false_eq_true, false_iff]
      rintro ⟨-, -, -, p, hp, h1, h2⟩
      exact hB p hp ⟨h1, h2⟩
    · rw [if_neg hB]
      simp only [Option.isSome_some, true_iff]
      refine ⟨hd, ht, hl, ?_⟩
      rw [ratios_and_diffs_fst] at hB
      simp only [ne_eq, List.map_eq_nil_iff, List.filter_eq_nil_iff,
        decide_eq_true_eq, not_forall] at hB
      obtain ⟨p, hp, hcond⟩ := hB
      exact ⟨p, hp, not_not.mp hcond⟩

/-- Witness for C6: the five-pair example satisfies the conditions and
yields a result. -/
theorem calculate_calibration_isSome_iff_witness :
    (calculate_calibration_factors davis5 tempest5).isSome :=
  (calculate_calibration_isSome_iff davis5 tempest5).mpr
    ⟨by simp [davis5], by simp [tempest5], by simp [davis5, tempest5],
      ⟨⟨10, 100⟩, ⟨12, 105⟩⟩, by norm_num [davis5, tempest5], by norm_num, by norm_num⟩

/-- Anatomy of every successfully returned calibration result: its list
fields are the accumulation loop's output and the scalar fields are the
stated functions of them. -/
lemma calculate_some_anatomy (davis tempest : List WindSample)
    (r : CalibrationResult)
    (hr : calculate_calibration_factors davis tempest = some r) :
    r.speed_ratios = (ratios_and_diffs (davis.zip tempest)).1 ∧
    r.direction_diffs = (ratios_and_diffs (davis.zip tempest)).2 ∧
    r.speed_calibration_factor = r.speed_ratios.sum / r.speed_ratios.length ∧
    r.direction_offset = r.direction_diffs.sum / r.direction_diffs.length ∧
    r.sample_count = r.speed_ratios.length := by
  unfold calculate_calibration_factors at hr
  by_cases h1 : davis = [] ∨ tempest = [] ∨ davis.length ≠ tempest.length
  · rw [if_pos h1] at hr
    exact absurd hr (by simp)
  · rw [if_neg h1] at hr
    dsimp only at hr
    by_cases h2 : (ratios_and_diffs (davis.zip tempest)).1 = []
    · rw [if_pos h2] at hr
      exact absurd hr (by simp)
    · rw [if_neg h2] at hr
      have hrec := Option.some.inj hr
      subst hrec
      exact ⟨rfl, rfl, rfl, rfl, rfl⟩

/-! ### Claim C5 -/

/-- Claim C5: in every returned calibration result, the speed-ratio list
is exactly the ratios of the pairs where both speeds exceed the 0.1-knot
noise floor, while the direction-difference list has one (wrap-around)
entry for every pair — an excluded pair still contributes its direction
difference — and the returned factor and offset are the arithmetic means
of those two lists. -/
theorem speed_ratio_noise_floor (davis tempest : List WindSample)
    (r : CalibrationResult)
    (hr : calculate_calibration_factors davis tempest = some r) :
    r.speed_ratios =
      ((davis.zip tempest).filter fun p =>
          decide (0.1 < p.1.wind_speed_knots ∧ 0.1 < p.2.wind_speed_knots)).map
        (fun p => p.2.wind_speed_knots / p.1.wind_speed_knots) ∧
    r.direction_diffs =
      (davis.zip tempest).map
        (fun p => wrap_diff p.1.wind_direction_deg p.2.wind_direction_deg) ∧
    r.speed_calibration_factor = r.speed_ratios.sum / r.speed_ratios.length ∧
    r.direction_offset = r.direction_diffs.sum / r.direction_diffs.length := by
  obtain ⟨h1, h2, h3, h4, -⟩ := calculate_some_anatomy davis tempest r hr
  exact ⟨by rw [h1, ratios_and_diffs_fst], by rw [h2, ratios_and_diffs_snd], h3, h4⟩

/-- Witness for C5 on the concrete input with a below-floor device speed
of 0.05 kt: only the first pair's ratio survives, both pairs' direction
differences are kept. -/
theorem speed_ratio_noise_floor_witness :
    result_low.speed_ratios = [6 / 5] ∧ result_low.direction_diffs = [5, 10] := by
  have h := speed_ratio_noise_floor davis_low tempest_low result_low calc_low_eq
  refine ⟨h.1.trans ?_, h.2.1.trans ?_⟩
  · norm_num [davis_low, tempest_low]
  · norm_num [davis_low, tempest_low, wrap_diff]

/-! ### Claim C10 -/

/-- Claim C10: in every returned calibration result, `sample_count` is
the number of pairs whose speed ratio survived the 0.1-knot noise floor,
which can be strictly smaller than the number of input pairs and than
the number of direction differences averaged into the offset (witnessed
by the below-floor example). -/
theorem sample_count_counts_surviving_ratios :
    (∀ davis tempest r,
        calculate_calibration_factors davis tempest = some r →
          r.sample_count = r.speed_ratios.length ∧
          r.sample_count = (davis.zip tempest).countP
            (fun p => decide (0.1 < p.1.wind_speed_knots ∧
              0.1 < p.2.wind_speed_knots)) ∧
          r.direction_diffs.length = (davis.zip tempest).length) ∧
      ∃ r, calculate_calibration_factors davis_low tempest_low = some r ∧
        r.sample_count < davis_low.length ∧
        r.sample_count < r.direction_diffs.length := by
  constructor
  · intro davis tempest r hr
    obtain ⟨h1, h2, -, -, h5⟩ := calculate_some_anatomy davis tempest r hr
    refine ⟨h5, ?_, ?_⟩
    · rw [h5, h1, ratios_and_diffs_fst, List.length_map, List.countP_eq_length_filter]
    · rw [h2, ratios_and_diffs_snd, List.length_map]
  · exact ⟨result_low, calc_low_eq, by simp [result_low, davis_low], by simp [result_low]⟩

/-- Witness for C10's universally quantified part at the below-floor
example. -/
theorem sample_count_counts_surviving_ratios_witness :
    result_low.direction_diffs.length = (davis_low.zip tempest_low).length :=
  (sample_count_counts_surviving_ratios.1 davis_low tempest_low result_low calc_low_eq).2.2

/-! ### Claim C2 -/

/-- Claim C2: an accepted calibration in the Bootstrap state (no prior
accepted calibration) is applied with adjustment rate 1.0 — the live
factors become exactly the computed values — and the calibrator
transitions to the Steady state; an accepted calibration in the Steady
state is applied as `new = old*(1-rate) + computed*rate` with the
configured rate; and the Steady state is permanent (the flag never goes
back to false). -/
theorem continuous_calibration_policy (cfg : CalibConfig) (st : CalibState)
    (davis tempest : List WindSample) :
    (∀ r, calculate_calibration_factors davis tempest = some r →
        3 ≤ davis.length →
        ((st.has_initial_calibration = false →
            cfg.initial_calibration_confidence ≤ r.speed_confidence →
            cfg.initial_direction_confidence ≤ r.direction_confidence →
            calibration_cycle cfg st davis tempest =
              ⟨r.speed_calibration_factor, r.direction_offset, true⟩) ∧
          (st.has_initial_calibration = true →
            cfg.continuous_confidence_threshold ≤ r.speed_confidence →
            cfg.continuous_direction_confidence_threshold ≤ r.direction_confidence →
            calibration_cycle cfg st davis tempest =
              ⟨st.current_speed_factor * (1 - cfg.continuous_adjustment_rate) +
                  r.speed_calibration_factor * cfg.continuous_adjustment_rate,
                st.current_direction_offset * (1 - cfg.continuous_adjustment_rate) +
                  r.direction_offset * cfg.continuous_adjustment_rate, true⟩))) ∧
      (st.has_initial_calibration = true →
        (calibration_cycle cfg st davis tempest).has_initial_calibration = true) := by
  constructor
  · intro r hr h3
    constructor
    · intro hb hs hd
      unfold calibration_cycle
      rw [if_pos h3, hr]
      simp only [hb, eq_self_iff_true, if_true]
      rw [if_pos ⟨hs, hd⟩]
      simp only [CalibState.mk.injEq]
      refine ⟨by ring, by ring, trivial⟩
    · intro hb hs hd
      unfold calibration_cycle
      rw [if_pos h3, hr]
      simp only [hb, Bool.true_eq_false, if_false, eq_self_iff_true, if_true]
      rw [if_pos ⟨hs, hd⟩]
  · intro hb
    unfold calibration_cycle
    by_cases h3 : 3 ≤ davis.length
    · rw [if_pos h3]
      cases hr : calculate_calibration_factors davis tempest with
      | none => exact hb
      | some r =>
        simp only [hb, Bool.true_eq_false, if_false, eq_self_iff_true, if_true]
        by_cases hacc : cfg.continuous_confidence_threshold ≤ r.speed_confidence ∧
            cfg.continuous_direction_confidence_threshold ≤ r.direction_confidence
        · rw [if_pos hacc]
        · rw [if_neg hacc]
          exact hb
    · rw [if_neg h3]
      exact hb

/-- Witness for C2: with the argparse defaults and the five-identical-
pair sample set (confidences 1), a Bootstrap cycle from state
`(1, 0°, not bootstrapped)` lands exactly on the computed `(1.2, 5°)`
and sets the flag; a Steady cycle from `(1, 0°, bootstrapped)` with
rate 0.3 moves 30% of the way: `(1.06, 1.5°)`. -/
theorem continuous_calibration_policy_witness :
    calibration_cycle default_config ⟨1, 0, false⟩ davis5 tempest5 =
        ⟨6 / 5, 5, true⟩ ∧
      calibration_cycle default_config ⟨1, 0, true⟩ davis5 tempest5 =
        ⟨53 / 50, 3 / 2, true⟩ := by
  constructor
  · have h := ((continuous_calibration_policy default_config ⟨1, 0, false⟩
        davis5 tempest5).1 result5 calc5_eq (by simp [davis5])).1 rfl
      (by norm_num [default_config, result5]) (by norm_num [default_config, result5])
    exact h.trans (by norm_num [result5])
  · have h := ((continuous_calibration_policy default_config ⟨1, 0, true⟩
        davis5 tempest5).1 result5 calc5_eq (by simp [davis5])).2 rfl
      (by norm_num [default_config, result5]) (by norm_num [default_config, result5])
    refine h.trans ?_
    simp only [CalibState.mk.injEq, default_config, result5]
    norm_num

/-! ### Claim C3 -/

/-- In a sorted list, the element at index `k` has at least `k + 1`
elements `≤` it and at least `length - k` elements `≥` it. -/
lemma sorted_getD_counts (s : List ℤ) (hs : s.Sorted (· ≤ ·)) (k : ℕ)
    (hk : k < s.length) :
    k + 1 ≤ s.countP (fun x => decide (x ≤ s.getD k 0)) ∧
      s.length - k ≤ s.countP (fun x => decide (s.getD k 0 ≤ x)) := by
  have hpw := List.pairwise_iff_getElem.mp hs
  have hget := List.getD_eq_getElem s 0 hk
  constructor
  · have hsplit : s.countP (fun x => decide (x ≤ s.getD k 0)) =
        (s.take (k + 1)).countP (fun x => decide (x ≤ s.getD k 0)) +
          (s.drop (k + 1)).countP (fun x => decide (x ≤ s.getD k 0)) := by
      rw [← List.countP_append, List.take_append_drop]
    have htake : (s.take (k + 1)).countP (fun x => decide (x ≤ s.getD k 0)) =
        (s.take (k + 1)).length := by
      rw [List.countP_eq_length]
      intro a ha
      obtain ⟨i, hi, hia⟩ := List.mem_iff_getElem.mp ha
      have hik : i < k + 1 := lt_of_lt_of_le hi (by rw [List.length_take]; exact inf_le_left)
      have his : i < s.length := lt_of_lt_of_le hi (by rw [List.length_take]; exact inf_le_right)
      have hval : s[i] = a := by rw [← hia, List.getElem_take]
      simp only [decide_eq_true_eq, hget, ← hval]
      rcases Nat.lt_succ_iff_lt_or_eq.mp hik with h | h
      · exact hpw i k his hk h
      · subst h
        exact le_refl _
    have hlen : (s.take (k + 1)).length = k + 1 := by
      rw [List.length_take]
      exact min_eq_left (Nat.succ_le_of_lt hk)
    omega
  · have hsplit : s.countP (fun x => decide (s.getD k 0 ≤ x)) =
        (s.take k).countP (fun x => decide (s.getD k 0 ≤ x)) +
          (s.drop k).countP (fun x => decide (s.getD k 0 ≤ x)) := by
      rw [← List.countP_append, List.take_append_drop]
    have hdrop : (s.drop k).countP (fun x => decide (s.getD k 0 ≤ x)) =
        (s.drop k).length := by
      rw [List.countP_eq_length]
      intro a ha
      obtain ⟨i, hi, hia⟩ := List.mem_iff_getElem.mp ha
      have his : k + i < s.length := by
        rw [List.length_drop] at hi
        omega
      have hval : s[k + i] = a := by rw [← hia, List.getElem_drop]
      simp only [decide_eq_true_eq, hget, ← hval]
      rcases Nat.eq_zero_or_pos i with h | h
      · subst h
        exact le_refl _
      · exact hpw k (k + i) hk his (by omega)
    have hlen : (s.drop k).length = s.length - k := List.length_drop k s
    omega

/-- Claim C3 counterexample: a bucket holding the six samples
`[0, 0, 0, 10, 10, 10]` (≥ 5 of them). -/
def hist_even : ℤ → List ℤ := fun b => if b = 0 then [0, 0, 0, 10, 10, 10] else []

/-- Claim C3 counterexample: on the even-sized bucket
`[0, 0, 0, 10, 10, 10]`, `get_expected_pot_value` returns 10 (the upper
of the two central values), while the median of those samples is 5 —
so the function does not return the bucket's median. -/
theorem expected_pot_value_not_statistical_median :
    get_expected_pot_value true hist_even 5 = some 10 ∧
      median_spec [0, 0, 0, 10, 10, 10] = 5 ∧ (10 : ℚ) ≠ 5 := by
  refine ⟨?_, ?_, by norm_num⟩
  · have hb : get_direction_bucket 5 = 0 := by
      unfold get_direction_bucket
      norm_num
    unfold get_expected_pot_value
    rw [if_neg (by simp), hb]
    decide
  · have hsort : List.insertionSort (· ≤ ·) [(0 : ℤ), 0, 0, 10, 10, 10] =
        [0, 0, 0, 10, 10, 10] := by decide
    unfold median_spec
    dsimp only
    rw [hsort]
    norm_num

/-- Claim C3 (amended): `get_expected_pot_value` returns `None` for a
bucket with fewer than 5 samples; for a bucket with 5 or more samples it
returns the element at index `⌊n/2⌋` of the sorted samples — a member of
the bucket with at least half the samples `≤` it and at least half `≥`
it (the median for odd `n`, the upper of the two central values for even
`n`); and `add_data_point` caps each bucket at the 100 most recent
samples, dropping the oldest first, leaving other buckets unchanged. -/
theorem direction_history_props (history : ℤ → List ℤ) (dir : ℚ) (v : ℤ) :
    ((history (get_direction_bucket dir)).length < 5 →
        get_expected_pot_value true history dir = none) ∧
    (∀ m, get_expected_pot_value true history dir = some m →
        m ∈ history (get_direction_bucket dir) ∧
        (history (get_direction_bucket dir)).length ≤
          2 * (history (get_direction_bucket dir)).countP (fun x => decide (x ≤ m)) ∧
        (history (get_direction_bucket dir)).length ≤
          2 * (history (get_direction_bucket dir)).countP (fun x => decide (m ≤ x))) ∧
    (5 ≤ (history (get_direction_bucket dir)).length →
        (get_expected_pot_value true history dir).isSome) ∧
    List.IsSuffix (add_data_point true history dir v (get_direction_bucket dir))
        (history (get_direction_bucket dir) ++ [v]) ∧
    (add_data_point true history dir v (get_direction_bucket dir)).length =
      min ((history (get_direction_bucket dir)).length + 1) 100 ∧
    (∀ b, b ≠ get_direction_bucket dir →
        add_data_point true history dir v b = history b) := by
  refine ⟨?_, ?_, ?_, ?_, ?_, ?_⟩
  · intro h5
    unfold get_expected_pot_value
    rw [if_neg (by simp)]
    dsimp only
    rw [if_neg (by omega)]
  · intro m hm
    unfold get_expected_pot_value at hm
    rw [if_neg (by simp)] at hm
    dsimp only at hm
    by_cases h5 : 5 ≤ (history (get_direction_bucket dir)).length
    · rw [if_pos h5] at hm
      have hmval := Option.some.inj hm
      have hperm : (List.insertionSort (· ≤ ·)
          (history (get_direction_bucket dir))).Perm
          (history (get_direction_bucket dir)) := List.perm_insertionSort _ _
      have hsorted : (List.insertionSort (· ≤ ·)
          (history (get_direction_bucket dir))).Sorted (· ≤ ·) :=
        List.sorted_insertionSort _ _
      have hlen := hperm.length_eq
      have hk : (List.insertionSort (· ≤ ·)
          (history (get_direction_bucket dir))).length / 2 <
          (List.insertionSort (· ≤ ·) (history (get_direction_bucket dir))).length :=
        Nat.div_lt_self (by omega) (by omega)
      obtain ⟨hc1, hc2⟩ := sorted_getD_counts _ hsorted _ hk
      rw [hmval] at hc1 hc2
      have ht1 := hperm.countP_eq (fun x => decide (x ≤ m))
      have ht2 := hperm.countP_eq (fun x => decide (m ≤ x))
      refine ⟨?_, by omega, by omega⟩
      rw [← hmval, List.getD_eq_getElem _ 0 hk]
      exact hperm.mem_iff.mp (List.getElem_mem _)
    · rw [if_neg h5] at hm
      exact absurd hm (by simp)
  · intro h5
    unfold get_expected_pot_value
    rw [if_neg (by simp)]
    dsimp only
    rw [if_pos h5]
    simp
  · unfold add_data_point
    rw [if_neg (by simp)]
    dsimp only
    rw [if_pos rfl]
    by_cases hcap : 100 < (history (get_direction_bucket dir) ++ [v]).length
    · rw [if_pos hcap]
      exact List.drop_suffix _ _
    · rw [if_neg hcap]
  · unfold add_data_point
    rw [if_neg (by simp)]
    dsimp only
    rw [if_pos rfl]
    have hlen : (history (get_direction_bucket dir) ++ [v]).length =
        (history (get_direction_bucket dir)).length + 1 := by simp
    by_cases hcap : 100 < (history (get_direction_bucket dir) ++ [v]).length
    · rw [if_pos hcap, List.length_drop]
      omega
    · rw [if_neg hcap]
      omega
  · intro b hb
    unfold add_data_point
    rw [if_neg (by simp)]
    dsimp only
    rw [if_neg hb]

/-- Witness for C3 at the empty history: every bucket has fewer than 5
samples, so the expected pot value is `None`. -/
theorem direction_history_props_witness :
    get_expected_pot_value true (fun _ => []) 0 = none :=
  (direction_history_props (fun _ => []) 0 7).1 (by simp)

/-! ### Claim C8 -/

/-- A collector that received exactly the two directions 350° and 10°
(speeds 0). -/
noncomputable def collector_350_10 : WindDataCollector :=
  add_reading (add_reading (reset_collection 60) ⟨0, 0, 350⟩) ⟨0, 0, 10⟩

lemma radians_350 : radians 350 = 2 * Real.pi - radians 10 := by
  unfold radians
  ring

lemma cos_radians_350 : Real.cos (radians 350) = Real.cos (radians 10) := by
  rw [radians_350, Real.cos_sub, Real.cos_two_pi, Real.sin_two_pi]
  ring

lemma sin_radians_350 : Real.sin (radians 350) = -Real.sin (radians 10) := by
  rw [radians_350, Real.sin_sub, Real.cos_two_pi, Real.sin_two_pi]
  ring

lemma cos_radians_10_pos : 0 < Real.cos (radians 10) := by
  apply Real.cos_pos_of_mem_Ioo
  have hpi := Real.pi_pos
  unfold radians
  constructor
  · nlinarith
  · nlinarith

lemma atan2_zero_of_pos {x : ℝ} (hx : 0 < x) : atan2 0 x = 0 := by
  unfold atan2
  rw [if_pos hx, zero_div, Real.arctan_zero]

lemma cos_radians_10_large : (0.98 : ℝ) < Real.cos (radians 10) := by
  have hpi := Real.pi_pos
  have hlt := Real.pi_lt_d2
  have hb := Real.one_sub_sq_div_two_le_cos (x := radians 10)
  unfold radians at hb ⊢
  nlinarith

lemma collector_350_10_eq :
    collector_350_10 = ⟨60, [0, 0], [0, 0], [350, 10], 2, some 0, 0, some 0, 0⟩ := by
  unfold collector_350_10 add_reading reset_collection min_opt
  simp

lemma get_avg_350_10 :
    get_averaged_data collector_350_10 =
      some ⟨0, 0, 0, Real.cos (radians 10), some 0, 0, some 0, 0, 2, 60⟩ := by
  rw [collector_350_10_eq]
  unfold get_averaged_data
  rw [if_neg (by norm_num)]
  dsimp only
  simp only [List.map_cons, List.map_nil, List.sum_cons, List.sum_nil,
    List.length_cons, List.length_nil, cos_radians_350, sin_radians_350]
  have hx : (Real.cos (radians 10) + (Real.cos (radians 10) + 0)) / ((0 + 1 + 1 : ℕ) : ℝ)
      = Real.cos (radians 10) := by
    push_cast
    ring
  have hy : (-Real.sin (radians 10) + (Real.sin (radians 10) + 0)) / ((0 + 1 + 1 : ℕ) : ℝ)
      = 0 := by
    push_cast
    ring
  rw [hx, hy, atan2_zero_of_pos cos_radians_10_pos]
  have hdeg : degrees 0 = 0 := by
    unfold degrees
    ring
  rw [hdeg, if_neg (lt_irrefl 0)]
  have hmag : Real.sqrt (Real.cos (radians 10) * Real.cos (radians 10) + 0 * 0)
      = Real.cos (radians 10) := by
    rw [mul_zero, add_zero, Real.sqrt_mul_self cos_radians_10_pos.le]
  rw [hmag]
  have hz : ((0 : ℝ) + (0 + 0)) / ((0 + 1 + 1 : ℕ) : ℝ) = 0 := by
    push_cast
    ring
  rw [hz]

/-- Claim C8: reducing the two samples 350° and 10° yields a circular
mean direction of exactly 0° (not the naive arithmetic mean 180°), with
consistency magnitude exactly `cos 10°`, which exceeds 0.98. -/
theorem circular_mean_350_10 :
    ∃ r, get_averaged_data collector_350_10 = some r ∧
      r.avg_wind_direction_deg = 0 ∧ r.avg_wind_direction_deg ≠ 180 ∧
      r.wind_consistency = Real.cos (radians 10) ∧
      (0.98 : ℝ) < r.wind_consistency :=
  ⟨_, get_avg_350_10, rfl, by norm_num, rfl, cos_radians_10_large⟩

end WindSensor
